import Mathlib

/-!
Verification development for the `cuprate` consensus crate: a shallow embedding of
`src/consensus/src/block.rs` (main-chain block verification) and
`src/consensus/src/rpc.rs` (the concurrent blockchain RPC adapter), with theorems
checking the natural-language specification against the code.

Machine integers are modelled as `Nat` with explicit wrap-around (`% 2^64`, `% 2^128`)
where the Rust release-mode semantics wraps; hashes, blobs and opaque payloads are
modelled as `Nat` identifiers.
-/

namespace Cuprate

/-! Section: data model of `block.rs` -/

/-- Mirror of `TransactionVerificationData` (from the `transactions` module, used in `block.rs`):
a parsed transaction together with its weight and fee.  The parsed transaction itself is
opaque here, identified by its hash. -/
structure TransactionVerificationData where
  tx_hash : Nat
  tx_weight : Nat
  fee : Nat
deriving DecidableEq

/-- The parts of `monero_serai::block::Block` that `verify_main_chain_block` reads:
the list of referenced transaction hashes (`block.txs`), the miner transaction's weight
(`block.miner_tx.weight()`), the serialized length (`block.serialize().len()`), the
hashable pre-image (`block.serialize_hashable()`), and the block hash (`block.hash()`). -/
structure Block where
  txs : List Nat
  miner_tx_weight : Nat
  serialized_len : Nat
  hashable_blob : Nat
  block_hash : Nat
deriving DecidableEq

/-- Modelled from the spec: the context snapshot (`RawBlockChainContext`, defined in the
`context` module which is not among the provided sources).  The spec describes it as
"chain height, current hard fork, next difficulty, cumulative difficulty, a time reference
for time-lock checks, a long-term-weight function, and a reorg-invalidation token"; the
opaque rule parameters passed to `check_block` are kept as `context_to_verify_block`.
`time_for_time_lock` models `current_adjusted_timestamp_for_time_lock()` and
`next_block_long_term_weight` the method of the same name. -/
structure RawBlockChainContext where
  chain_height : Nat
  current_hf : Nat
  next_difficulty : Nat
  cumulative_difficulty : Nat
  time_for_time_lock : Nat
  re_org_token : Nat
  context_to_verify_block : Nat
  next_block_long_term_weight : Nat → Nat

/-- Mirror of `VerifiedBlockInformation` from `block.rs`. -/
structure VerifiedBlockInformation where
  block : Block
  hf_vote : Nat
  txs : List TransactionVerificationData
  block_hash : Nat
  pow_hash : Nat
  height : Nat
  generated_coins : Nat
  weight : Nat
  long_term_weight : Nat
  cumulative_difficulty : Nat
deriving DecidableEq

/-- Mirror of `ConsensusError` from the external `monero_consensus` crate: `block.rs` only builds the
`Block` variant, wrapping an opaque `BlockError`. -/
inductive ConsensusError where
  | Block (e : Nat)
deriving DecidableEq

/-- Modelled from the spec: the crate-root error type `ExtendedConsensusError` (the crate
root is not among the provided sources).  Per the spec's error taxonomy it distinguishes
consensus rejection (`ConErr`), missing transaction data (`TxNotInPool`, converted from the
pool adapter's error), and upstream service failure (`Other`, converted from a boxed
error). -/
inductive ExtendedConsensusError where
  | ConErr (e : ConsensusError)
  | TxNotInPool
  | Other (e : Nat)
deriving DecidableEq

/-- The fields of the `VerifyTxRequest::Block` variant built in `verify_main_chain_block`. -/
structure VerifyTxRequestBlock where
  txs : List TransactionVerificationData
  current_chain_height : Nat
  time_for_time_lock : Nat
  hf : Nat
  re_org_token : Nat

/-- Wrapping 64-bit addition (`usize`/`u64` addition in release mode). -/
def u64add (a b : Nat) : Nat := (a + b) % 2 ^ 64

/-- Wrapping 64-bit sum, as produced by `iter().map(..).sum::<usize>()` / `sum::<u64>()`. -/
def u64sum (l : List Nat) : Nat := l.foldl u64add 0

/-- Wrapping 128-bit addition (`u128` addition in release mode). -/
def u128add (a b : Nat) : Nat := (a + b) % 2 ^ 128

/-- Observable events of one `verify_main_chain_block` run, in order: the context fetch,
the pool resolution, the batch transaction verification, the weight/fee computation
(recording the computed block weight and total fees), the block-level rule check
(recording the total fees and block weight passed to it), the offloaded proof-of-work
hash computation, and the difficulty check. -/
inductive Event where
  | fetchContextOk
  | fetchContextErr
  | resolveTxsOk
  | resolveTxsErr
  | verifyTxsOk
  | verifyTxsErr
  | computeWeights (block_weight total_fees : Nat)
  | checkBlockOk (total_fees block_weight : Nat)
  | checkBlockErr (total_fees block_weight : Nat)
  | powHashOk (pow_hash : Nat)
  | powHashErr
  | powCheckOk (pow_hash difficulty : Nat)
  | powCheckErr (pow_hash difficulty : Nat)
  | assemble
deriving DecidableEq

/-- The dependencies of `BlockVerifierService`, plus the external `monero_consensus`
functions called by `verify_main_chain_block`.  Each `tower` service one-shot is modelled
as its final result:
* `context_svc`: the context service's reply to `BlockChainContextRequest::Get`
  (the `Context` payload, after `unchecked_blockchain_context()`), or a boxed error;
* `tx_pool`: reply to `TxPoolRequest::Transactions`, error type `TxNotInPool` (a unit);
* `tx_verifier`: reply to `VerifyTxRequest::Block`, the `Ok` response modelled as a unit;
* `check_block`, `calculate_pow_hash`, `check_block_pow`: the external consensus-rule
  predicates from `monero_consensus::blocks`, erring with an opaque `BlockError`. -/
structure BlockVerifierDeps where
  context_svc : Except Nat RawBlockChainContext
  tx_pool : List Nat → Except Unit (List TransactionVerificationData)
  tx_verifier : VerifyTxRequestBlock → Except ExtendedConsensusError Unit
  check_block : Block → Nat → Nat → Nat → Nat → Except Nat (Nat × Nat)
  calculate_pow_hash : Nat → Nat → Nat → Except Nat Nat
  check_block_pow : Nat → Nat → Except Nat Unit

/-- Shallow embedding of `verify_main_chain_block` (`block.rs`, lines 147-230), returning
the result together with the trace of observable events.  The strict ordering of the
source — context fetch, transaction resolution, batch verification, weight/fee
computation, block-level rule check, offloaded proof-of-work hashing, difficulty check,
assembly — is reproduced by the nesting; every step short-circuits on failure. -/
def verify_main_chain_block (deps : BlockVerifierDeps) (block : Block) :
    Except ExtendedConsensusError VerifiedBlockInformation × List Event :=
  match deps.context_svc with
  | .error e => (.error (.Other e), [.fetchContextErr])
  | .ok context =>
    match deps.tx_pool block.txs with
    | .error _ => (.error .TxNotInPool, [.fetchContextOk, .resolveTxsErr])
    | .ok txs =>
      match deps.tx_verifier
          { txs := txs
            current_chain_height := context.chain_height
            time_for_time_lock := context.time_for_time_lock
            hf := context.current_hf
            re_org_token := context.re_org_token } with
      | .error e => (.error e, [.fetchContextOk, .resolveTxsOk, .verifyTxsErr])
      | .ok _ =>
        let block_weight := u64add block.miner_tx_weight (u64sum (txs.map (·.tx_weight)))
        let total_fees := u64sum (txs.map (·.fee))
        match deps.check_block block total_fees block_weight block.serialized_len
            context.context_to_verify_block with
        | .error e =>
          (.error (.ConErr (.Block e)),
           [.fetchContextOk, .resolveTxsOk, .verifyTxsOk,
            .computeWeights block_weight total_fees, .checkBlockErr total_fees block_weight])
        | .ok (hf_vote, generated_coins) =>
          match deps.calculate_pow_hash block.hashable_blob context.chain_height
              context.current_hf with
          | .error e =>
            (.error (.ConErr (.Block e)),
             [.fetchContextOk, .resolveTxsOk, .verifyTxsOk,
              .computeWeights block_weight total_fees, .checkBlockOk total_fees block_weight,
              .powHashErr])
          | .ok pow_hash =>
            match deps.check_block_pow pow_hash context.next_difficulty with
            | .error e =>
              (.error (.ConErr (.Block e)),
               [.fetchContextOk, .resolveTxsOk, .verifyTxsOk,
                .computeWeights block_weight total_fees, .checkBlockOk total_fees block_weight,
                .powHashOk pow_hash, .powCheckErr pow_hash context.next_difficulty])
            | .ok _ =>
              (.ok { block_hash := block.block_hash
                     block := block
                     txs := txs
                     pow_hash := pow_hash
                     generated_coins := generated_coins
                     weight := block_weight
                     height := context.chain_height
                     long_term_weight := context.next_block_long_term_weight block_weight
                     hf_vote := hf_vote
                     cumulative_difficulty :=
                       u128add context.cumulative_difficulty context.next_difficulty },
               [.fetchContextOk, .resolveTxsOk, .verifyTxsOk,
                .computeWeights block_weight total_fees, .checkBlockOk total_fees block_weight,
                .powHashOk pow_hash, .powCheckOk pow_hash context.next_difficulty, .assemble])

/-- Does an event belong to the proof-of-work phase (hash computation or difficulty check)? -/
def isPowEvent : Event → Bool
  | .powHashOk _ => true
  | .powHashErr => true
  | .powCheckOk _ _ => true
  | .powCheckErr _ _ => true
  | _ => false

/-! Section: arithmetic helper lemmas -/

theorem u64add_eq_add (a b : Nat) (h : a + b < 2 ^ 64) : u64add a b = a + b := by
  unfold u64add
  exact Nat.mod_eq_of_lt h

theorem u64sum_foldl (l : List Nat) (acc : Nat) (h : acc + l.sum < 2 ^ 64) :
    l.foldl u64add acc = acc + l.sum := by
  induction l generalizing acc with
  | nil => simp
  | cons x xs ih =>
    rw [List.sum_cons] at h
    have hx : u64add acc x = acc + x := u64add_eq_add acc x (by omega)
    rw [List.foldl_cons, hx, ih (acc + x) (by omega), List.sum_cons]
    omega

theorem u64sum_eq_sum (l : List Nat) (h : l.sum < 2 ^ 64) : u64sum l = l.sum := by
  unfold u64sum
  rw [u64sum_foldl l 0 (by omega)]
  omega

theorem u128add_eq_add (a b : Nat) (h : a + b < 2 ^ 128) : u128add a b = a + b := by
  unfold u128add
  exact Nat.mod_eq_of_lt h

/-! Section: concrete example data (spec §8 end-to-end scenario: context with height 100,
next difficulty 500, cumulative difficulty 10000; two transactions of weight 300 and
fee 10 each; miner transaction weight 600). -/

def exContext : RawBlockChainContext :=
  { chain_height := 100
    current_hf := 1
    next_difficulty := 500
    cumulative_difficulty := 10000
    time_for_time_lock := 0
    re_org_token := 0
    context_to_verify_block := 0
    next_block_long_term_weight := fun w => w }

def exTx1 : TransactionVerificationData := { tx_hash := 1, tx_weight := 300, fee := 10 }

def exTx2 : TransactionVerificationData := { tx_hash := 2, tx_weight := 300, fee := 10 }

def exBlock : Block :=
  { txs := [1, 2]
    miner_tx_weight := 600
    serialized_len := 1000
    hashable_blob := 77
    block_hash := 99 }

def exDeps : BlockVerifierDeps :=
  { context_svc := .ok exContext
    tx_pool := fun _ => .ok [exTx1, exTx2]
    tx_verifier := fun _ => .ok ()
    check_block := fun _ _ _ _ _ => .ok (2, 1000000)
    calculate_pow_hash := fun _ _ _ => .ok 42
    check_block_pow := fun _ _ => .ok () }

def exDepsNoTx : BlockVerifierDeps :=
  { exDeps with tx_pool := fun _ => .error () }

def exInfo : VerifiedBlockInformation :=
  { block_hash := 99
    block := exBlock
    txs := [exTx1, exTx2]
    pow_hash := 42
    generated_coins := 1000000
    weight := 1200
    height := 100
    long_term_weight := 1200
    hf_vote := 2
    cumulative_difficulty := 10500 }

/-! Section: claims about `verify_main_chain_block` -/

/-- Claim C1: for every main-chain verification request that succeeds, the returned
record's weight equals the miner transaction's weight plus the sum of the weights of the
block's resolved transactions, and the total fees passed to the block-level rule check
(`check_block`) equal the sum of those transactions' fees.  (The no-overflow hypotheses
reflect that the source computes these sums in `usize`/`u64` arithmetic.) -/
theorem verify_weight_and_fees (deps : BlockVerifierDeps) (block : Block)
    (info : VerifiedBlockInformation) (context : RawBlockChainContext)
    (txs : List TransactionVerificationData)
    (hctx : deps.context_svc = .ok context)
    (hpool : deps.tx_pool block.txs = .ok txs)
    (hw : block.miner_tx_weight + (txs.map (·.tx_weight)).sum < 2 ^ 64)
    (hfee : (txs.map (·.fee)).sum < 2 ^ 64)
    (hok : (verify_main_chain_block deps block).1 = .ok info) :
    info.weight = block.miner_tx_weight + (txs.map (·.tx_weight)).sum ∧
    Event.checkBlockOk ((txs.map (·.fee)).sum) info.weight ∈
      (verify_main_chain_block deps block).2 := by
  have hsumw : u64sum (txs.map (·.tx_weight)) = (txs.map (·.tx_weight)).sum :=
    u64sum_eq_sum _ (by omega)
  have hsumf : u64sum (txs.map (·.fee)) = (txs.map (·.fee)).sum :=
    u64sum_eq_sum _ hfee
  have hadd : u64add block.miner_tx_weight (u64sum (txs.map (·.tx_weight))) =
      block.miner_tx_weight + (txs.map (·.tx_weight)).sum := by
    rw [hsumw]
    exact u64add_eq_add _ _ hw
  simp only [verify_main_chain_block, hctx, hpool] at hok ⊢
  rcases hv : deps.tx_verifier
      { txs := txs
        current_chain_height := context.chain_height
        time_for_time_lock := context.time_for_time_lock
        hf := context.current_hf
        re_org_token := context.re_org_token } with e | u
  · simp [hv] at hok
  rcases hcb : deps.check_block block (u64sum (txs.map (·.fee)))
      (u64add block.miner_tx_weight (u64sum (txs.map (·.tx_weight))))
      block.serialized_len context.context_to_verify_block with e | p
  · simp [hv, hcb] at hok
  rcases p with ⟨hf_vote, generated_coins⟩
  rcases hph : deps.calculate_pow_hash block.hashable_blob context.chain_height
      context.current_hf with e | pow_hash
  · simp [hv, hcb, hph] at hok
  rcases hpw : deps.check_block_pow pow_hash context.next_difficulty with e | u2
  · simp [hv, hcb, hph, hpw] at hok
  simp only [hv, hcb, hph, hpw] at hok ⊢
  simp only [Except.ok.injEq] at hok
  subst hok
  refine ⟨hadd, ?_⟩
  simp [hsumf, hadd]

/-- Claim C1 witness: the spec's end-to-end scenario, where the successful record has
weight `600 + 300 + 300 = 1200` and total fees `20`. -/
theorem verify_weight_and_fees_witness :
    exDeps.context_svc = .ok exContext ∧
    exDeps.tx_pool exBlock.txs = .ok [exTx1, exTx2] ∧
    exBlock.miner_tx_weight + ([exTx1, exTx2].map (·.tx_weight)).sum < 2 ^ 64 ∧
    ([exTx1, exTx2].map (·.fee)).sum < 2 ^ 64 ∧
    (verify_main_chain_block exDeps exBlock).1 = .ok exInfo ∧
    (exInfo.weight = exBlock.miner_tx_weight + ([exTx1, exTx2].map (·.tx_weight)).sum ∧
     Event.checkBlockOk (([exTx1, exTx2].map (·.fee)).sum) exInfo.weight ∈
       (verify_main_chain_block exDeps exBlock).2) :=
  ⟨rfl, rfl, by decide, by decide, rfl,
   verify_weight_and_fees exDeps exBlock exInfo exContext [exTx1, exTx2]
     rfl rfl (by decide) (by decide) rfl⟩

/-- Claim C2: for every main-chain verification request that succeeds, the returned
record's `cumulative_difficulty` equals the context snapshot's cumulative difficulty plus
the snapshot's next difficulty, the proof-of-work difficulty check on the record's pow
hash succeeded, and the successful difficulty-check event is in the trace — so no record
is produced when that check fails. -/
theorem verify_cumulative_difficulty (deps : BlockVerifierDeps) (block : Block)
    (info : VerifiedBlockInformation) (context : RawBlockChainContext)
    (hctx : deps.context_svc = .ok context)
    (hcd : context.cumulative_difficulty + context.next_difficulty < 2 ^ 128)
    (hok : (verify_main_chain_block deps block).1 = .ok info) :
    info.cumulative_difficulty = context.cumulative_difficulty + context.next_difficulty ∧
    deps.check_block_pow info.pow_hash context.next_difficulty = .ok () ∧
    Event.powCheckOk info.pow_hash context.next_difficulty ∈
      (verify_main_chain_block deps block).2 := by
  simp only [verify_main_chain_block, hctx] at hok ⊢
  rcases hpool : deps.tx_pool block.txs with e | txs
  · simp [hpool] at hok
  rcases hv : deps.tx_verifier
      { txs := txs
        current_chain_height := context.chain_height
        time_for_time_lock := context.time_for_time_lock
        hf := context.current_hf
        re_org_token := context.re_org_token } with e | u
  · simp [hpool, hv] at hok
  rcases hcb : deps.check_block block (u64sum (txs.map (·.fee)))
      (u64add block.miner_tx_weight (u64sum (txs.map (·.tx_weight))))
      block.serialized_len context.context_to_verify_block with e | p
  · simp [hpool, hv, hcb] at hok
  rcases p with ⟨hf_vote, generated_coins⟩
  rcases hph : deps.calculate_pow_hash block.hashable_blob context.chain_height
      context.current_hf with e | pow_hash
  · simp [hpool, hv, hcb, hph] at hok
  rcases hpw : deps.check_block_pow pow_hash context.next_difficulty with e | u2
  · simp [hpool, hv, hcb, hph, hpw] at hok
  simp only [hpool, hv, hcb, hph, hpw] at hok ⊢
  simp only [Except.ok.injEq] at hok
  subst hok
  refine ⟨u128add_eq_add _ _ hcd, ?_, by simp⟩
  simpa using hpw

/-- Claim C2 witness: in the spec's end-to-end scenario the successful record has
cumulative difficulty `10000 + 500 = 10500`. -/
theorem verify_cumulative_difficulty_witness :
    exDeps.context_svc = .ok exContext ∧
    exContext.cumulative_difficulty + exContext.next_difficulty < 2 ^ 128 ∧
    (verify_main_chain_block exDeps exBlock).1 = .ok exInfo ∧
    (exInfo.cumulative_difficulty =
       exContext.cumulative_difficulty + exContext.next_difficulty ∧
     exDeps.check_block_pow exInfo.pow_hash exContext.next_difficulty = .ok () ∧
     Event.powCheckOk exInfo.pow_hash exContext.next_difficulty ∈
       (verify_main_chain_block exDeps exBlock).2) :=
  ⟨rfl, by decide, rfl,
   verify_cumulative_difficulty exDeps exBlock exInfo exContext rfl (by decide) rfl⟩

/-- Claim C3: when the pool adapter cannot resolve some transaction hash referenced by
the block, the whole request fails with the missing-data error (`TxNotInPool`) and no
verified-block record — not even a partial one — is produced. -/
theorem missing_tx_fails_whole_request (deps : BlockVerifierDeps) (block : Block)
    (context : RawBlockChainContext)
    (hctx : deps.context_svc = .ok context)
    (hpool : deps.tx_pool block.txs = .error ()) :
    (verify_main_chain_block deps block).1 = .error .TxNotInPool ∧
    ∀ info, (verify_main_chain_block deps block).1 ≠ .ok info := by
  constructor
  · simp [verify_main_chain_block, hctx, hpool]
  · intro info h
    simp [verify_main_chain_block, hctx, hpool] at h

/-- Claim C3 witness: the spec scenario with a pool that resolves nothing. -/
theorem missing_tx_fails_whole_request_witness :
    exDepsNoTx.context_svc = .ok exContext ∧
    exDepsNoTx.tx_pool exBlock.txs = .error () ∧
    ((verify_main_chain_block exDepsNoTx exBlock).1 = .error .TxNotInPool ∧
     ∀ info, (verify_main_chain_block exDepsNoTx exBlock).1 ≠ .ok info) :=
  ⟨rfl, rfl, missing_tx_fails_whole_request exDepsNoTx exBlock exContext rfl rfl⟩

/-- Claim C4: the proof-of-work hash is computed, and the difficulty target checked, only
after context fetch, transaction resolution, batch transaction verification, weight/fee
computation and the block-level rule check have all succeeded: whenever any
proof-of-work event appears in the trace, the trace starts with the successful cheaper
steps in order, the pow phase comes strictly after them, and the corresponding oracle
calls all returned success. -/
theorem pow_only_after_cheap_checks (deps : BlockVerifierDeps) (block : Block)
    (h : ((verify_main_chain_block deps block).2.any isPowEvent) = true) :
    ∃ context txs hf_vote generated_coins rest,
      deps.context_svc = .ok context ∧
      deps.tx_pool block.txs = .ok txs ∧
      deps.tx_verifier
        { txs := txs
          current_chain_height := context.chain_height
          time_for_time_lock := context.time_for_time_lock
          hf := context.current_hf
          re_org_token := context.re_org_token } = .ok () ∧
      deps.check_block block (u64sum (txs.map (·.fee)))
          (u64add block.miner_tx_weight (u64sum (txs.map (·.tx_weight))))
          block.serialized_len context.context_to_verify_block =
        .ok (hf_vote, generated_coins) ∧
      (verify_main_chain_block deps block).2 =
        Event.fetchContextOk :: Event.resolveTxsOk :: Event.verifyTxsOk ::
          Event.computeWeights (u64add block.miner_tx_weight (u64sum (txs.map (·.tx_weight))))
            (u64sum (txs.map (·.fee))) ::
          Event.checkBlockOk (u64sum (txs.map (·.fee)))
            (u64add block.miner_tx_weight (u64sum (txs.map (·.tx_weight)))) :: rest ∧
      (rest.head? = some Event.powHashErr ∨
       ∃ pow_hash, rest.head? = some (Event.powHashOk pow_hash)) := by
  simp only [verify_main_chain_block] at h ⊢
  rcases hctx : deps.context_svc with e | context
  · simp [hctx, isPowEvent] at h
  rcases hpool : deps.tx_pool block.txs with e | txs
  · simp [hctx, hpool, isPowEvent] at h
  rcases hv : deps.tx_verifier
      { txs := txs
        current_chain_height := context.chain_height
        time_for_time_lock := context.time_for_time_lock
        hf := context.current_hf
        re_org_token := context.re_org_token } with e | u
  · simp [hctx, hpool, hv, isPowEvent] at h
  rcases hcb : deps.check_block block (u64sum (txs.map (·.fee)))
      (u64add block.miner_tx_weight (u64sum (txs.map (·.tx_weight))))
      block.serialized_len context.context_to_verify_block with e | p
  · simp [hctx, hpool, hv, hcb, isPowEvent] at h
  rcases p with ⟨hf_vote, generated_coins⟩
  rcases hph : deps.calculate_pow_hash block.hashable_blob context.chain_height
      context.current_hf with e | pow_hash
  · exact ⟨context, txs, hf_vote, generated_coins, [Event.powHashErr],
      rfl, rfl, by cases u; exact hv, hcb, by simp [hv, hcb, hph], Or.inl rfl⟩
  rcases hpw : deps.check_block_pow pow_hash context.next_difficulty with e | u2
  · exact ⟨context, txs, hf_vote, generated_coins,
      [Event.powHashOk pow_hash, Event.powCheckErr pow_hash context.next_difficulty],
      rfl, rfl, by cases u; exact hv, hcb,
      by simp [hv, hcb, hph, hpw], Or.inr ⟨pow_hash, rfl⟩⟩
  · exact ⟨context, txs, hf_vote, generated_coins,
      [Event.powHashOk pow_hash, Event.powCheckOk pow_hash context.next_difficulty,
       Event.assemble],
      rfl, rfl, by cases u; exact hv, hcb,
      by simp [hv, hcb, hph, hpw], Or.inr ⟨pow_hash, rfl⟩⟩

/-- Claim C4 witness: in the successful end-to-end scenario the pow events do occur, so
the trace decomposes as stated. -/
theorem pow_only_after_cheap_checks_witness :
    ((verify_main_chain_block exDeps exBlock).2.any isPowEvent) = true ∧
    (∃ context txs hf_vote generated_coins rest,
      exDeps.context_svc = .ok context ∧
      exDeps.tx_pool exBlock.txs = .ok txs ∧
      exDeps.tx_verifier
        { txs := txs
          current_chain_height := context.chain_height
          time_for_time_lock := context.time_for_time_lock
          hf := context.current_hf
          re_org_token := context.re_org_token } = .ok () ∧
      exDeps.check_block exBlock (u64sum (txs.map (·.fee)))
          (u64add exBlock.miner_tx_weight (u64sum (txs.map (·.tx_weight))))
          exBlock.serialized_len context.context_to_verify_block =
        .ok (hf_vote, generated_coins) ∧
      (verify_main_chain_block exDeps exBlock).2 =
        Event.fetchContextOk :: Event.resolveTxsOk :: Event.verifyTxsOk ::
          Event.computeWeights
            (u64add exBlock.miner_tx_weight (u64sum (txs.map (·.tx_weight))))
            (u64sum (txs.map (·.fee))) ::
          Event.checkBlockOk (u64sum (txs.map (·.fee)))
            (u64add exBlock.miner_tx_weight (u64sum (txs.map (·.tx_weight)))) :: rest ∧
      (rest.head? = some Event.powHashErr ∨
       ∃ pow_hash, rest.head? = some (Event.powHashOk pow_hash))) :=
  ⟨by decide, pow_only_after_cheap_checks exDeps exBlock (by decide)⟩

/-! Section: data model of `rpc.rs` -/

/-- Opaque transport errors (`monero_serai::rpc::RpcError`), identified by a number. -/
abbrev RpcError := Nat

/-- Mirror of `RpcState` from `rpc.rs`: the per-clone connection-acquisition state.  The payloads
(the owned-lock future and the owned mutex guard) are modelled by the transition system
below. -/
inductive RpcState where
  | Locked
  | Acquiring
  | Acquired
deriving DecidableEq

/-- Mirror of `cuprate_common::BlockID`. -/
inductive BlockID where
  | Hash (h : Nat)
  | Height (h : Nat)
deriving DecidableEq

/-- Mirror of `BlockPOWInfo` from the `pow` module: timestamp plus 128-bit cumulative difficulty. -/
structure BlockPOWInfo where
  timestamp : Nat
  cumulative_difficulty : Nat
deriving DecidableEq

/-- The deserialized `block_header` object of the `get_block_header_by_height` /
`get_block_header_by_hash` JSON-RPC responses (`BlockHeaderResponse` in
`get_blocks_pow_info`): all three fields are `u64`. -/
structure BlockHeaderResponse where
  cumulative_difficulty : Nat
  cumulative_difficulty_top64 : Nat
  timestamp : Nat
deriving DecidableEq

/-- The `DatabaseRequest` kinds served by `<Rpc as Service>::call`. -/
inductive DatabaseRequest where
  | ChainHeight
  | BlockHeader (id : BlockID)
  | BlockPOWInfo (id : BlockID)
deriving DecidableEq

/-- The corresponding `DatabaseResponse` payloads (block headers are opaque). -/
inductive DatabaseResponse where
  | ChainHeight (h : Nat)
  | BlockHeader (hdr : Nat)
  | BlockPOWInfo (info : Cuprate.BlockPOWInfo)
deriving DecidableEq

/-- The remote node surface used by the adapter (`monero_serai::rpc::Rpc`): each remote
call is modelled by its final result.  `get_height` yields the remote's height value as an
unbounded natural, so that values outside the adapter's height type can be discussed. -/
structure RemoteNode where
  get_height : Except RpcError Nat
  get_block : Nat → Except RpcError Nat
  get_block_by_number : Nat → Except RpcError Nat
  get_block_header_by_height : Nat → Except RpcError BlockHeaderResponse
  get_block_header_by_hash : Nat → Except RpcError BlockHeaderResponse

/-- Embedding of `u128_from_low_high` from `rpc.rs`: `(high as u128) << 64 | low as u128`. -/
def u128_from_low_high (low high : Nat) : Nat :=
  (high <<< 64) ||| low

/-- Outcome of driving one `call` future to completion: a response, a propagated error,
or a panic (`unwrap` / the `poll_ready was not called first!` panic). -/
inductive CallResult where
  | ok (r : DatabaseResponse)
  | err (e : RpcError)
  | panicked
deriving DecidableEq

/-- Embedding of `get_blocks_pow_info` from `rpc.rs`: one structured JSON-RPC call per identifier
kind; the response's two 64-bit cumulative-difficulty halves are recombined with
`u128_from_low_high` and paired with the block timestamp.  Note that this helper has no
access to the adapter's error slot: its errors are propagated with `?` only. -/
def get_blocks_pow_info (remote : RemoteNode) (id : BlockID) : CallResult :=
  match id with
  | .Height height =>
    match remote.get_block_header_by_height height with
    | .ok res =>
      .ok (.BlockPOWInfo
        { timestamp := res.timestamp
          cumulative_difficulty :=
            u128_from_low_high res.cumulative_difficulty res.cumulative_difficulty_top64 })
    | .error e => .err e
  | .Hash hash =>
    match remote.get_block_header_by_hash hash with
    | .ok res =>
      .ok (.BlockPOWInfo
        { timestamp := res.timestamp
          cumulative_difficulty :=
            u128_from_low_high res.cumulative_difficulty res.cumulative_difficulty_top64 })
    | .error e => .err e

/-- Result of one `poll_ready` invocation: `Poll::Ready(Ok(()))`, `Poll::Ready(Err(e))`,
or `Poll::Pending`. -/
inductive PollOutcome where
  | readyOk
  | readyErr (e : RpcError)
  | pending
deriving DecidableEq

/-- Embedding of `<Rpc as Service>::poll_ready` as a function of the shared error slot, the clone's
`rpc_state`, and whether the shared `futures::lock::Mutex` can be acquired right now.
Returns the poll outcome together with the clone's new `rpc_state`.  The source checks
the error slot first and returns the stored error without touching `rpc_state`; otherwise
it loops `Locked → Acquiring → Acquired`, suspending in `Acquiring` while the mutex is
held elsewhere. -/
def poll_ready (error_slot : Option RpcError) (rpc_state : RpcState) (mutexFree : Bool) :
    PollOutcome × RpcState :=
  match error_slot with
  | some e => (.readyErr e, rpc_state)
  | none =>
    match rpc_state with
    | .Acquired => (.readyOk, .Acquired)
    | .Locked => if mutexFree then (.readyOk, .Acquired) else (.pending, .Acquiring)
    | .Acquiring => if mutexFree then (.readyOk, .Acquired) else (.pending, .Acquiring)

/-- Embedding of `<Rpc as Service>::call`, composed with driving the returned future to completion:
given the remote node, the clone's `rpc_state`, and the shared error slot's current
contents, returns the call outcome together with the error slot's new contents.
Faithful points from the source:
* any state other than `Acquired` panics (`poll_ready was not called first!`);
* the `ChainHeight` and both `BlockHeader` arms write any transport error into the
  error slot before propagating it; `ChainHeight` converts the remote height with
  `try_into().unwrap()`, which panics when the value does not fit in 64 bits;
* the `BlockPOWInfo` arm delegates to `get_blocks_pow_info`, which never touches the
  error slot. -/
def rpc_call (remote : RemoteNode) (rpc_state : RpcState) (err_slot : Option RpcError)
    (req : DatabaseRequest) : CallResult × Option RpcError :=
  match rpc_state with
  | .Acquired =>
    match req with
    | .ChainHeight =>
      match remote.get_height with
      | .ok height =>
        if height < 2 ^ 64 then (.ok (.ChainHeight height), err_slot)
        else (.panicked, err_slot)
      | .error e => (.err e, some e)
    | .BlockHeader (.Hash hash) =>
      match remote.get_block hash with
      | .ok block_header => (.ok (.BlockHeader block_header), err_slot)
      | .error e => (.err e, some e)
    | .BlockHeader (.Height height) =>
      match remote.get_block_by_number height with
      | .ok block_header => (.ok (.BlockHeader block_header), err_slot)
      | .error e => (.err e, some e)
    | .BlockPOWInfo id => (get_blocks_pow_info remote id, err_slot)
  | _ => (.panicked, err_slot)

/-! Section: transition system for one adapter instance and its clones

The shared state of one `Rpc` instance: since every clone's `rpc_state` is one of three
data-free tags, the instance state is abstracted to the number of clones in each tag,
plus the number of in-flight call futures (each of which owns the mutex guard moved out
of an `Acquired` clone by `call`), plus the shared sticky error slot. -/

structure RpcSys where
  nLocked : Nat
  nAcquiring : Nat
  nAcquired : Nat
  calls : Nat
  slot : Option RpcError
deriving DecidableEq

/-- Number of owners of the shared `futures::lock::Mutex` guard: clones whose
`rpc_state` holds the guard (`Acquired`) plus in-flight call futures. -/
def guardCount (s : RpcSys) : Nat := s.nAcquired + s.calls

/-- The state after `Rpc::new_http`: one clone in `Locked`, no calls, empty error slot. -/
def rpcNew : RpcSys :=
  { nLocked := 1, nAcquiring := 0, nAcquired := 0, calls := 0, slot := none }

/-- One scheduler step of the adapter instance:
* `clone`: `Clone for Rpc` hands out a new clone in `Locked` sharing slot and mutex;
* `lockStart`: `poll_ready` with an empty slot turns `Locked` into `Acquiring`
  (creates the `lock_owned` future);
* `lockAcquire`: `poll_ready` with an empty slot completes acquisition — the
  `futures::lock::Mutex` grants the owned guard only while no other owner holds it;
* `startCall`: `call` on an `Acquired` clone moves the guard into the new in-flight
  future and resets that clone to `Locked`;
* `completeOk` / `completeErr`: an in-flight call future finishes, dropping the guard;
  on a transport error it first writes the error into the shared slot;
* `dropAcquiring` / `dropAcquired`: a caller abandons a pending claim, or drops an
  acquired clone, releasing its guard.
When the slot holds an error, `poll_ready` returns early, so no acquisition step fires. -/
inductive RpcStep : RpcSys → RpcSys → Prop where
  | clone (s : RpcSys) :
      RpcStep s { s with nLocked := s.nLocked + 1 }
  | lockStart (s : RpcSys) :
      s.slot = none → 0 < s.nLocked →
      RpcStep s { s with nLocked := s.nLocked - 1, nAcquiring := s.nAcquiring + 1 }
  | lockAcquire (s : RpcSys) :
      s.slot = none → 0 < s.nAcquiring → guardCount s = 0 →
      RpcStep s { s with nAcquiring := s.nAcquiring - 1, nAcquired := s.nAcquired + 1 }
  | startCall (s : RpcSys) :
      0 < s.nAcquired →
      RpcStep s
        { s with nAcquired := s.nAcquired - 1, nLocked := s.nLocked + 1,
                 calls := s.calls + 1 }
  | completeOk (s : RpcSys) :
      0 < s.calls →
      RpcStep s { s with calls := s.calls - 1 }
  | completeErr (s : RpcSys) (e : RpcError) :
      0 < s.calls →
      RpcStep s { s with calls := s.calls - 1, slot := some e }
  | dropAcquiring (s : RpcSys) :
      0 < s.nAcquiring →
      RpcStep s { s with nAcquiring := s.nAcquiring - 1 }
  | dropAcquired (s : RpcSys) :
      0 < s.nAcquired →
      RpcStep s { s with nAcquired := s.nAcquired - 1 }

/-- States reachable from a fresh adapter instance. -/
inductive RpcReachable : RpcSys → Prop where
  | new : RpcReachable rpcNew
  | step (s s' : RpcSys) : RpcReachable s → RpcStep s s' → RpcReachable s'

/-! Section: concrete example data for the RPC adapter -/

/-- A remote node whose every call fails with transport error `7`. -/
def remoteDown : RemoteNode :=
  { get_height := .error 7
    get_block := fun _ => .error 7
    get_block_by_number := fun _ => .error 7
    get_block_header_by_height := fun _ => .error 7
    get_block_header_by_hash := fun _ => .error 7 }

/-- A remote node reporting a height that does not fit in 64 bits. -/
def remoteHuge : RemoteNode := { remoteDown with get_height := .ok (2 ^ 64) }

/-- A remote node reporting the representable height `123`. -/
def remoteSmall : RemoteNode := { remoteDown with get_height := .ok 123 }

/-- A remote node whose block-header queries return cumulative difficulty halves
`low = 0xFFFFFFFFFFFFFFFF`, `high = 1` and timestamp `111`. -/
def remoteHdr : RemoteNode :=
  { remoteDown with
    get_block_header_by_height := fun _ =>
      .ok { cumulative_difficulty := 0xFFFFFFFFFFFFFFFF
            cumulative_difficulty_top64 := 1
            timestamp := 111 }
    get_block_header_by_hash := fun _ =>
      .ok { cumulative_difficulty := 0xFFFFFFFFFFFFFFFF
            cumulative_difficulty_top64 := 1
            timestamp := 111 } }

def exSysCall : RpcSys :=
  { nLocked := 1, nAcquiring := 0, nAcquired := 0, calls := 1, slot := some 7 }

def exSysDone : RpcSys :=
  { nLocked := 1, nAcquiring := 0, nAcquired := 0, calls := 0, slot := some 7 }

def exSysMid1 : RpcSys :=
  { nLocked := 0, nAcquiring := 1, nAcquired := 0, calls := 0, slot := none }

def exSysMid2 : RpcSys :=
  { nLocked := 0, nAcquiring := 0, nAcquired := 1, calls := 0, slot := none }

def exSysInCall : RpcSys :=
  { nLocked := 1, nAcquiring := 0, nAcquired := 0, calls := 1, slot := none }

/-! Section: claims about the RPC adapter -/

/-- Claim C5: once the shared sticky error cell holds a transport error, every
readiness check on every clone — whatever its acquisition state and whether or not the
connection is free — returns the stored error immediately, leaving the clone's state
unchanged (so no acquisition of the connection and no new remote call is attempted),
and no step of the adapter instance ever clears the cell back to empty. -/
theorem sticky_error_blocks_poll_ready (e : RpcError) (rpc_state : RpcState)
    (mutexFree : Bool) (s s' : RpcSys) (hstep : RpcStep s s')
    (hsome : s.slot.isSome = true) :
    poll_ready (some e) rpc_state mutexFree = (.readyErr e, rpc_state) ∧
    s'.slot.isSome = true := by
  refine ⟨rfl, ?_⟩
  cases hstep <;> simp_all

/-- Claim C5 witness: an in-flight call completing on an instance whose cell holds
error `7`; the cell stays set and a `Locked` clone's readiness check fails with `7`. -/
theorem sticky_error_blocks_poll_ready_witness :
    RpcStep exSysCall exSysDone ∧ exSysCall.slot.isSome = true ∧
    (poll_ready (some 7) .Locked true = (.readyErr 7, .Locked) ∧
     exSysDone.slot.isSome = true) :=
  ⟨RpcStep.completeOk exSysCall (by decide), rfl,
   sticky_error_blocks_poll_ready 7 .Locked true exSysCall exSysDone
     (RpcStep.completeOk exSysCall (by decide)) rfl⟩

/-- Claim C6 counterexample: a transport failure of a proof-of-work-info request is
propagated to the caller (`err 7`) while the sticky error cell stays empty — the
`BlockPOWInfo` arm of `call` delegates to `get_blocks_pow_info`, which never writes the
cell, refuting the claim for that request kind. -/
theorem pow_info_failure_not_written_to_slot :
    (rpc_call remoteDown .Acquired none (.BlockPOWInfo (.Height 0))).1 = .err 7 ∧
    (rpc_call remoteDown .Acquired none (.BlockPOWInfo (.Height 0))).2 = none :=
  ⟨rfl, rfl⟩

/-- Claim C6 (amended): for the chain-height and block-header request kinds, any
transport failure of the remote call writes the error into the sticky cell as it is
propagated; for the proof-of-work-info kind the error propagates with the cell left
unchanged. -/
theorem transport_failures_sticky_except_pow_info (remote : RemoteNode)
    (err_slot : Option RpcError) (e : RpcError) (id : BlockID) :
    (remote.get_height = .error e →
      rpc_call remote .Acquired err_slot .ChainHeight = (.err e, some e)) ∧
    (∀ h, remote.get_block h = .error e →
      rpc_call remote .Acquired err_slot (.BlockHeader (.Hash h)) = (.err e, some e)) ∧
    (∀ h, remote.get_block_by_number h = .error e →
      rpc_call remote .Acquired err_slot (.BlockHeader (.Height h)) = (.err e, some e)) ∧
    (rpc_call remote .Acquired err_slot (.BlockPOWInfo id)).2 = err_slot := by
  refine ⟨fun hres => ?_, fun h hres => ?_, fun h hres => ?_, rfl⟩
  · simp [rpc_call, hres]
  · simp [rpc_call, hres]
  · simp [rpc_call, hres]

/-- Claim C6 witness: a failing chain-height call writes error `7` into the cell; a
failing proof-of-work-info call leaves the cell empty. -/
theorem transport_failures_sticky_except_pow_info_witness :
    remoteDown.get_height = .error 7 ∧
    rpc_call remoteDown .Acquired none .ChainHeight = (.err 7, some 7) ∧
    (rpc_call remoteDown .Acquired none (.BlockPOWInfo (.Hash 3))).2 = none :=
  ⟨rfl,
   (transport_failures_sticky_except_pow_info remoteDown none 7 (.Hash 3)).1 rfl,
   (transport_failures_sticky_except_pow_info remoteDown none 7 (.Hash 3)).2.2.2⟩

/-- Claim C7 counterexample: a remote height of `2 ^ 64` makes the chain-height request
panic (`try_into().unwrap()`), not fail cleanly with an error value. -/
theorem chain_height_overflow_panics :
    (rpc_call remoteHuge .Acquired none .ChainHeight).1 = .panicked := by decide

/-- Claim C7 (amended): a remote height value outside the adapter's 64-bit height type
makes the request panic — a crash, not an error return — and no silent truncation ever
occurs: a representable height is returned exactly. -/
theorem chain_height_no_truncation (remote : RemoteNode) (err_slot : Option RpcError)
    (h : Nat) (hres : remote.get_height = .ok h) :
    (h < 2 ^ 64 →
      rpc_call remote .Acquired err_slot .ChainHeight = (.ok (.ChainHeight h), err_slot)) ∧
    (2 ^ 64 ≤ h → (rpc_call remote .Acquired err_slot .ChainHeight).1 = .panicked) := by
  refine ⟨fun hlt => ?_, fun hge => ?_⟩
  · simp only [rpc_call, hres]
    rw [if_pos hlt]
  · simp only [rpc_call, hres]
    rw [if_neg (Nat.not_lt.mpr hge)]

/-- Claim C7 witness: height `123` is representable and is returned exactly. -/
theorem chain_height_no_truncation_witness :
    remoteSmall.get_height = .ok 123 ∧ (123 : Nat) < 2 ^ 64 ∧
    rpc_call remoteSmall .Acquired none .ChainHeight = (.ok (.ChainHeight 123), none) :=
  ⟨rfl, by decide, (chain_height_no_truncation remoteSmall none 123 rfl).1 (by decide)⟩

/-- For `low < 2 ^ 64` (a `u64` value), the adapter's reconstruction
`(high << 64) ||| low` equals `high * 2 ^ 64 + low`. -/
theorem u128_from_low_high_eq (low high : Nat) (hlow : low < 2 ^ 64) :
    u128_from_low_high low high = high * 2 ^ 64 + low := by
  unfold u128_from_low_high
  rw [Nat.shiftLeft_eq, Nat.mul_comm high (2 ^ 64)]
  exact (Nat.mul_add_lt_is_or hlow high).symm

/-- Claim C8: the 128-bit cumulative-difficulty reconstruction returns
`(high << 64) ||| low = high * 2 ^ 64 + low`; in particular for
`low = 0xFFFFFFFFFFFFFFFF`, `high = 1` it returns `2 ^ 64 + 0xFFFFFFFFFFFFFFFF`; and in
the proof-of-work info response (for either identifier kind) this value is paired with
the block's timestamp. -/
theorem u128_reconstruction_and_pairing (remote : RemoteNode) (low high ts hh hsh : Nat)
    (hlow : low < 2 ^ 64)
    (hheight : remote.get_block_header_by_height hh =
      .ok { cumulative_difficulty := low, cumulative_difficulty_top64 := high,
            timestamp := ts })
    (hhash : remote.get_block_header_by_hash hsh =
      .ok { cumulative_difficulty := low, cumulative_difficulty_top64 := high,
            timestamp := ts }) :
    u128_from_low_high low high = high * 2 ^ 64 + low ∧
    u128_from_low_high 0xFFFFFFFFFFFFFFFF 1 = 2 ^ 64 + 0xFFFFFFFFFFFFFFFF ∧
    get_blocks_pow_info remote (.Height hh) =
      .ok (.BlockPOWInfo ⟨ts, u128_from_low_high low high⟩) ∧
    get_blocks_pow_info remote (.Hash hsh) =
      .ok (.BlockPOWInfo ⟨ts, u128_from_low_high low high⟩) := by
  refine ⟨u128_from_low_high_eq low high hlow, ?_, ?_, ?_⟩
  · rw [u128_from_low_high_eq 0xFFFFFFFFFFFFFFFF 1 (by decide), Nat.one_mul]
  · simp [get_blocks_pow_info, hheight]
  · simp [get_blocks_pow_info, hhash]

/-- Claim C8 witness: the remote returning halves `(0xFFFFFFFFFFFFFFFF, 1)` with
timestamp `111`, for block height `5` and block hash `9`. -/
theorem u128_reconstruction_and_pairing_witness :
    (0xFFFFFFFFFFFFFFFF : Nat) < 2 ^ 64 ∧
    remoteHdr.get_block_header_by_height 5 =
      .ok { cumulative_difficulty := 0xFFFFFFFFFFFFFFFF, cumulative_difficulty_top64 := 1,
            timestamp := 111 } ∧
    remoteHdr.get_block_header_by_hash 9 =
      .ok { cumulative_difficulty := 0xFFFFFFFFFFFFFFFF, cumulative_difficulty_top64 := 1,
            timestamp := 111 } ∧
    (u128_from_low_high 0xFFFFFFFFFFFFFFFF 1 = 1 * 2 ^ 64 + 0xFFFFFFFFFFFFFFFF ∧
     u128_from_low_high 0xFFFFFFFFFFFFFFFF 1 = 2 ^ 64 + 0xFFFFFFFFFFFFFFFF ∧
     get_blocks_pow_info remoteHdr (.Height 5) =
       .ok (.BlockPOWInfo ⟨111, u128_from_low_high 0xFFFFFFFFFFFFFFFF 1⟩) ∧
     get_blocks_pow_info remoteHdr (.Hash 9) =
       .ok (.BlockPOWInfo ⟨111, u128_from_low_high 0xFFFFFFFFFFFFFFFF 1⟩)) :=
  ⟨by decide, rfl, rfl,
   u128_reconstruction_and_pairing remoteHdr 0xFFFFFFFFFFFFFFFF 1 111 5 9
     (by decide) rfl rfl⟩

/-- Claim C9: invoking `call` on a handle whose state is not `Acquired` (readiness not
driven to completion) panics — for every request kind and every slot content — rather
than returning a recoverable error value. -/
theorem call_without_ready_panics (remote : RemoteNode) (err_slot : Option RpcError)
    (req : DatabaseRequest) (rpc_state : RpcState) (hst : rpc_state ≠ .Acquired) :
    (rpc_call remote rpc_state err_slot req).1 = .panicked := by
  cases rpc_state with
  | Locked => rfl
  | Acquiring => rfl
  | Acquired => exact absurd rfl hst

/-- Claim C9 witness: calling from the `Locked` state panics. -/
theorem call_without_ready_panics_witness :
    RpcState.Locked ≠ RpcState.Acquired ∧
    (rpc_call remoteDown .Locked none .ChainHeight).1 = .panicked :=
  ⟨by decide, call_without_ready_panics remoteDown none .ChainHeight .Locked (by decide)⟩

/-- Invariant: in every reachable state of one adapter instance, at most one owner of
the shared connection guard exists (an `Acquired` clone or an in-flight call). -/
theorem rpc_guard_invariant (s : RpcSys) (h : RpcReachable s) : guardCount s ≤ 1 := by
  induction h with
  | new => decide
  | step s s' hr hstep ih =>
    cases hstep <;> (simp [guardCount] at *; omega)

/-- Claim C10: in every reachable state of one adapter instance shared by any number of
clones, at most one remote call is in flight, and more generally at most one owner of
the connection permit (acquired clone or in-flight call) exists; a call starts only by
consuming an `Acquired` clone's permit, and completion — success or failure — releases
it. -/
theorem at_most_one_call_in_flight (s : RpcSys) (h : RpcReachable s) :
    s.calls ≤ 1 ∧ guardCount s ≤ 1 := by
  have hg := rpc_guard_invariant s h
  unfold guardCount at hg ⊢
  omega

/-- Claim C10 witness: the reachable state after one clone acquires the permit and
issues a call has exactly one call in flight. -/
theorem at_most_one_call_in_flight_witness :
    RpcReachable exSysInCall ∧ (exSysInCall.calls ≤ 1 ∧ guardCount exSysInCall ≤ 1) :=
  have hreach : RpcReachable exSysInCall :=
    RpcReachable.step exSysMid2 exSysInCall
      (RpcReachable.step exSysMid1 exSysMid2
        (RpcReachable.step rpcNew exSysMid1 RpcReachable.new
          (RpcStep.lockStart rpcNew rfl (by decide)))
        (RpcStep.lockAcquire exSysMid1 rfl (by decide) (by decide)))
      (RpcStep.startCall exSysMid2 (by decide))
  ⟨hreach, at_most_one_call_in_flight exSysInCall hreach⟩

end Cuprate
